import Mathlib

/-!
Shallow embedding of the GKE Workload Identity troubleshooter's core
decision logic.

The embedded code is `performKsaCheck` (cmd/check.go) — the verifier that
inspects a cluster's Workload Identity configuration, the KSA's
`iam.gke.io/gcp-service-account` annotation, and the IAM policies of either
the annotated GSA (Branch A) or the project (Branch B) — and
`getKsaFromWorkload` (cmd/workload.go) — the workload-to-KSA resolver.

Remote services (the cluster's identity store and the two IAM policy
endpoints) are modelled as fixture functions supplied to the verifier, and
every remote query the verifier performs is recorded in a trace, so that
"service X is never queried" is the statement "no query to X appears in the
trace".  Client-handle construction (iam.NewService etc.) is connection
plumbing and is not modelled.  Console progress printing is not modelled
except where a claim depends on the text: the messages a run ends with
(error returns and the informational remediation options) are carried in
the result.
-/

namespace GkeWif

/-- Go `strings.Contains s sub`: `sub` occurs as a contiguous substring of `s`. -/
def strContains (s sub : String) : Bool := decide (sub.data <:+: s.data)

/-- Go `strings.ToLower` (character-wise case folding). -/
def strToLower (s : String) : String := ⟨s.data.map Char.toLower⟩

/-- `WorkloadIdentityConfig` sub-object of a GKE cluster record. -/
structure WorkloadIdentityConfig where
  workloadPool : String
deriving DecidableEq, Repr

/-- The fields of the GKE cluster record that `performKsaCheck` reads. -/
structure Cluster where
  name : String
  location : String
  workloadIdentityConfig : Option WorkloadIdentityConfig
deriving DecidableEq, Repr

/-- A Kubernetes ServiceAccount as the verifier sees it: its annotation map. -/
structure ServiceAccount where
  annotations : String → Option String

/-- One IAM policy binding: a role and its member list (order preserved). -/
structure Binding where
  role : String
  members : List String
deriving DecidableEq, Repr

/-- An IAM policy: an ordered list of bindings. -/
structure Policy where
  bindings : List Binding
deriving DecidableEq, Repr

/-- Fixture responses for the three remote lookups the verifier can make:
the KSA get on the cluster's identity store, the GSA IAM policy get, and
the project IAM policy get.  `Except.error` models a failed call. -/
structure Fixtures where
  ksaGet : String → String → Except String ServiceAccount
  identityPolicyGet : String → Except String Policy
  projectPolicyGet : String → Except String Policy

/-- A remote query performed during a run, recorded in order. -/
inductive Query where
  | ksaGet (ns name : String)
  | identityPolicy (gsaEmail : String)
  | projectPolicy (projectID : String)
deriving DecidableEq, Repr

/-- The verifier's terminal outcomes.  The first four correspond to non-nil
error returns of `performKsaCheck` (the CLI then exits non-zero); the last
three are nil returns (exit code 0). -/
inductive VerificationResult where
  | failNoFederation (detail : String)
  | failNoIdentity (detail : String)
  | policyFetchError (detail : String)
  | failNoBinding (remediation : String)
  | passDirectBinding
  | directProjectBinding (member : String)
  | infoNoAnnot (remediationOptions : List String)
deriving DecidableEq, Repr

/-- Whether the outcome is a non-nil error return of `performKsaCheck`. -/
def VerificationResult.isError : VerificationResult → Bool
  | .failNoFederation _ => true
  | .failNoIdentity _ => true
  | .policyFetchError _ => true
  | .failNoBinding _ => true
  | .passDirectBinding => false
  | .directProjectBinding _ => false
  | .infoNoAnnot _ => false

/-- The annotation key linking a KSA to a GSA. -/
def gsaAnnotationKey : String := "iam.gke.io/gcp-service-account"

/-- The consumer role checked in Branch A. -/
def workloadIdentityUserRole : String := "roles/iam.workloadIdentityUser"

/-- `legacySyntax` candidate: `serviceAccount:<project>.svc.id.goog[<ns>/<name>]`. -/
def legacySyntax (projectID ns name : String) : String :=
  "serviceAccount:" ++ projectID ++ ".svc.id.goog[" ++ ns ++ "/" ++ name ++ "]"

/-- `principalSchema` candidate: `<project>.svc.id.goog/subject/ns/<ns>/sa/<name>`. -/
def principalSchema (projectID ns name : String) : String :=
  projectID ++ ".svc.id.goog/subject/ns/" ++ ns ++ "/sa/" ++ name

/-- Branch B's member test: `strings.Contains(m, principalSchema) ||
strings.Contains(m, legacySyntax)`, with `ps`/`ls` the two candidates. -/
def memberMatches (ps ls m : String) : Bool :=
  strContains m ps || strContains m ls

/-- Branch B's inner loop over one binding's members: the first member that
matches either candidate (the inner `break`). -/
def scanBinding (ps ls : String) (b : Binding) : Option String :=
  b.members.find? (memberMatches ps ls)

/-- Branch B's outer loop over all bindings: `foundMember` starts as `acc`
(the code starts with the empty string) and is overwritten by each binding's
first matching member; there is no outer-loop `break`. -/
def scanBindings (ps ls : String) (bs : List Binding) (acc : String) : String :=
  match bs with
  | [] => acc
  | b :: rest =>
    match scanBinding ps ls b with
    | some m => scanBindings ps ls rest m
    | none => scanBindings ps ls rest acc

/-- Branch A's loop: some binding has the consumer role and contains the
legacy-syntax candidate verbatim (the `break`s make the loop an `any`). -/
def bindingFound (ls : String) (bs : List Binding) : Bool :=
  bs.any fun b => b.role == workloadIdentityUserRole && b.members.any fun m => m == ls

/-- Error text when the cluster has no usable Workload Identity config. -/
def wifNotEnabledMsg (clusterName : String) : String :=
  "Workload Identity is not enabled on cluster '" ++ clusterName ++ "'"

/-- Error text when the KSA get fails. -/
def ksaNotFoundMsg (ksaName ns e : String) : String :=
  "failed to get Kubernetes Service Account '" ++ ksaName ++ "' in namespace '" ++
    ns ++ "': " ++ e

/-- Error text when the project policy get fails (Branch B). -/
def projectPolicyErrMsg (projectID e : String) : String :=
  "failed to get IAM policy for project '" ++ projectID ++ "': " ++ e

/-- Error text when the GSA policy get fails (Branch A). -/
def gsaPolicyErrMsg (gsaEmail e : String) : String :=
  "failed to get IAM policy for GSA '" ++ gsaEmail ++ "' (does it exist?): " ++ e

/-- Branch A's remediation message when the consumer-role binding is missing. -/
def addBindingRemediation (gsaEmail projectID ns name : String) : String :=
  "IAM binding not found. Run the following command to fix:\n\ngcloud iam service-accounts add-iam-policy-binding " ++
    gsaEmail ++ " \\\n  --role=roles/iam.workloadIdentityUser \\\n  --member=\"serviceAccount:" ++
    projectID ++ ".svc.id.goog[" ++ ns ++ "/" ++ name ++ "]\""

/-- Branch B's first remediation option when no project-level match is found. -/
def noBindingOption1 : String :=
  "\t  1. Grant IAM roles directly to the KSA principal on the project level (recommended).\n\t\tThe principal syntax could be found at https://cloud.google.com/kubernetes-engine/docs/concepts/workload-identity#kubernetes-resources-iam-policies"

/-- Branch B's second remediation option when no project-level match is found. -/
def noBindingOption2 (ns name : String) : String :=
  "\t  2. Annotate the KSA '" ++ ns ++ "/" ++ name ++ "' to impersonate a GSA ."

/-- The verifier `performKsaCheck` (cmd/check.go), returning its terminal
outcome together with the trace of remote queries it performed. -/
def performKsaCheck (fx : Fixtures) (projectID ksaNamespace ksaName : String)
    (cluster : Cluster) : VerificationResult × List Query :=
  match cluster.workloadIdentityConfig with
  | none => (.failNoFederation (wifNotEnabledMsg cluster.name), [])
  | some wic =>
    if wic.workloadPool = "" then
      (.failNoFederation (wifNotEnabledMsg cluster.name), [])
    else
      match fx.ksaGet ksaNamespace ksaName with
      | .error e =>
        (.failNoIdentity (ksaNotFoundMsg ksaName ksaNamespace e),
          [.ksaGet ksaNamespace ksaName])
      | .ok ksa =>
        let gsaEmail := (ksa.annotations gsaAnnotationKey).getD ""
        let ls := legacySyntax projectID ksaNamespace ksaName
        let ps := principalSchema projectID ksaNamespace ksaName
        if gsaEmail = "" then
          match fx.projectPolicyGet projectID with
          | .error e =>
            (.policyFetchError (projectPolicyErrMsg projectID e),
              [.ksaGet ksaNamespace ksaName, .projectPolicy projectID])
          | .ok policy =>
            let foundMember := scanBindings ps ls policy.bindings ""
            if foundMember = "" then
              (.infoNoAnnot [noBindingOption1, noBindingOption2 ksaNamespace ksaName],
                [.ksaGet ksaNamespace ksaName, .projectPolicy projectID])
            else
              (.directProjectBinding foundMember,
                [.ksaGet ksaNamespace ksaName, .projectPolicy projectID])
        else
          match fx.identityPolicyGet gsaEmail with
          | .error e =>
            (.policyFetchError (gsaPolicyErrMsg gsaEmail e),
              [.ksaGet ksaNamespace ksaName, .identityPolicy gsaEmail])
          | .ok policy =>
            if bindingFound ls policy.bindings then
              (.passDirectBinding,
                [.ksaGet ksaNamespace ksaName, .identityPolicy gsaEmail])
            else
              (.failNoBinding (addBindingRemediation gsaEmail projectID ksaNamespace ksaName),
                [.ksaGet ksaNamespace ksaName, .identityPolicy gsaEmail])

/-- The five supported workload kinds. -/
inductive WorkloadKind where
  | deployment
  | statefulset
  | daemonset
  | job
  | cronjob
deriving DecidableEq, Repr

/-- The kind dispatch of `getKsaFromWorkload` (cmd/workload.go): the switch
on `strings.ToLower(wType)`, with `none` for the default case. -/
def workloadKind (wType : String) : Option WorkloadKind :=
  match strToLower wType with
  | "deployment" | "deploy" => some .deployment
  | "statefulset" | "sts" => some .statefulset
  | "daemonset" | "ds" => some .daemonset
  | "job" => some .job
  | "cronjob" | "cj" => some .cronjob
  | _ => none

/-- A workload get performed against the cluster's workload store. -/
structure WorkloadFetch where
  kind : WorkloadKind
  ns : String
  name : String
deriving DecidableEq, Repr

/-- `getKsaFromWorkload` (cmd/workload.go): resolves a workload to the name
of the KSA it runs as.  The per-kind stores are modelled as one fixture
function from (kind, namespace, name) to the workload's
`ServiceAccountName` field (`Except.error` models a failed get), and the
gets performed are returned as a trace. -/
def getKsaFromWorkload (store : WorkloadKind → String → String → Except String String)
    (ns name wType : String) : Except String String × List WorkloadFetch :=
  match workloadKind wType with
  | none => (.error ("unsupported workload type '" ++ wType ++ "'"), [])
  | some k =>
    match store k ns name with
    | .error e =>
      (.error ("could not get workload '" ++ ns ++ "/" ++ name ++ "' of type '" ++
        wType ++ "': " ++ e), [⟨k, ns, name⟩])
    | .ok saName =>
      (if saName = "" then .ok "default" else .ok saName, [⟨k, ns, name⟩])

set_option maxRecDepth 8192

/-- Modelled from the spec (4.3 `matches`, claim C1): scan every binding's
member list, bindings in order, members in order, first hit wins. -/
def firstHitMember (ps ls : String) (bs : List Binding) : Option String :=
  (bs.flatMap Binding.members).find? (memberMatches ps ls)

/-- Modelled from the spec (4.3 `matches`, claim C3): the first member that
is exactly equal to the legacy form or contains the current form. -/
def specMatches (ls ps : String) (members : List String) : Option String :=
  members.find? fun m => m == ls || strContains m ps

/-- Modelled from the spec (4.3 `candidates`, claim C2): the legacy form
built from the pool identifier. -/
def legacyFromPool (pool ns name : String) : String :=
  "serviceAccount:" ++ pool ++ "[" ++ ns ++ "/" ++ name ++ "]"

/-- Modelled from the spec (4.3 `candidates`, claim C2): the current form
built from the pool identifier. -/
def currentFromPool (pool ns name : String) : String :=
  pool ++ "/subject/ns/" ++ ns ++ "/sa/" ++ name

/-- A KSA carrying no annotations at all. -/
def ksaNoAnnot : ServiceAccount := ⟨fun _ => none⟩

/-- A cluster with Workload Identity enabled on the default pool of project `acme`. -/
def clusterAcme : Cluster := ⟨"test-cluster", "us-central1", some ⟨"acme.svc.id.goog"⟩⟩

/-- Branch B fixture whose project policy has two bindings that both contain
a member with the legacy candidate of `acme`/`ns1`/`svc1` as a substring. -/
def fxTwoBindings : Fixtures where
  ksaGet := fun _ _ => .ok ksaNoAnnot
  identityPolicyGet := fun _ => .error "unused"
  projectPolicyGet := fun _ => .ok ⟨[
    ⟨"roles/viewer", ["first-serviceAccount:acme.svc.id.goog[ns1/svc1]"]⟩,
    ⟨"roles/editor", ["second-serviceAccount:acme.svc.id.goog[ns1/svc1]"]⟩]⟩

/-- Branch A fixture realizing the spec's concrete scenario. -/
def fxBranchA (policy : Policy) : Fixtures where
  ksaGet := fun _ _ =>
    .ok ⟨fun key => if key = gsaAnnotationKey then some "gsa@acme.iam.gserviceaccount.com" else none⟩
  identityPolicyGet := fun _ => .ok policy
  projectPolicyGet := fun _ => .error "unused"

/-- The spec's concrete Branch A policy: the consumer role held by the
legacy-syntax member. -/
def policyAcmeDirect : Policy :=
  ⟨[⟨"roles/iam.workloadIdentityUser", ["serviceAccount:acme.svc.id.goog[ns1/svc1]"]⟩]⟩

/-- Branch B fixture whose project policy's sole member is unrelated to the
candidates. -/
def fxNoMatch : Fixtures where
  ksaGet := fun _ _ => .ok ksaNoAnnot
  identityPolicyGet := fun _ => .error "unused"
  projectPolicyGet := fun _ => .ok ⟨[⟨"roles/viewer", ["user:alice@example.com"]⟩]⟩

/-- A cluster whose pool identifier differs from the project-derived
default of project `acme`. -/
def clusterOtherPool : Cluster := ⟨"test-cluster", "us-central1", some ⟨"other.svc.id.goog"⟩⟩

/-- Branch B fixture whose project policy's sole member is the legacy form
built from the cluster's pool `other.svc.id.goog`. -/
def fxOtherPoolMember : Fixtures where
  ksaGet := fun _ _ => .ok ksaNoAnnot
  identityPolicyGet := fun _ => .error "unused"
  projectPolicyGet := fun _ => .ok ⟨[⟨"roles/viewer", ["serviceAccount:other.svc.id.goog[ns1/svc1]"]⟩]⟩

/-- Branch B fixture whose project policy's sole member strictly contains
the legacy candidate of `acme`/`ns1`/`svc1` without being equal to it. -/
def fxLegacySuperstring : Fixtures where
  ksaGet := fun _ _ => .ok ksaNoAnnot
  identityPolicyGet := fun _ => .error "unused"
  projectPolicyGet := fun _ =>
    .ok ⟨[⟨"roles/viewer", ["deleted:serviceAccount:acme.svc.id.goog[ns1/svc1]"]⟩]⟩

/-- A workload store answering every get with service account `sa1`. -/
def storeAllSa1 : WorkloadKind → String → String → Except String String :=
  fun _ _ _ => .ok "sa1"

theorem scanBindingsEq (ps ls : String) (bs : List Binding) (acc : String) :
    scanBindings ps ls bs acc = (bs.reverse.findSome? (scanBinding ps ls)).getD acc := by
  induction bs generalizing acc with
  | nil => rfl
  | cons b rest ih =>
    simp only [scanBindings, List.reverse_cons, List.findSome?_append]
    cases h : scanBinding ps ls b <;>
      cases h2 : rest.reverse.findSome? (scanBinding ps ls) <;>
        simp [ih, h, h2, List.findSome?]

theorem scanBindingsNone (ps ls : String) (bs : List Binding) (acc : String)
    (h : ∀ b ∈ bs, ∀ m ∈ b.members, memberMatches ps ls m = false) :
    scanBindings ps ls bs acc = acc := by
  induction bs generalizing acc with
  | nil => rfl
  | cons b rest ih =>
    have hb : scanBinding ps ls b = none := by
      apply List.find?_eq_none.mpr
      intro m hm
      simp [h b (List.mem_cons_self b rest) m hm]
    simp only [scanBindings, hb]
    exact ih acc fun b' hb' => h b' (List.mem_cons_of_mem b hb')

theorem bindingFoundIff (ls : String) (bs : List Binding) :
    bindingFound ls bs = true ↔
      ∃ b ∈ bs, b.role = workloadIdentityUserRole ∧ ls ∈ b.members := by
  simp [bindingFound, List.any_eq_true]

/-- C4: a cluster with no federation-config sub-object, or an empty pool
identifier, makes `performKsaCheck` terminate with `failNoFederation`, with
an empty query trace: the identity store and both policy services are never
queried. -/
theorem c4NoFederationShortCircuit (fx : Fixtures) (projectID ksaNamespace ksaName : String)
    (cluster : Cluster)
    (h : cluster.workloadIdentityConfig = none ∨
      ∃ wic, cluster.workloadIdentityConfig = some wic ∧ wic.workloadPool = "") :
    performKsaCheck fx projectID ksaNamespace ksaName cluster =
      (.failNoFederation (wifNotEnabledMsg cluster.name), []) := by
  rcases h with h | ⟨wic, h, hp⟩
  · simp [performKsaCheck, h]
  · simp [performKsaCheck, h, hp]

/-- C4 witness: a concrete cluster without the sub-object. -/
theorem c4NoFederationShortCircuitWitness :
    performKsaCheck fxTwoBindings "acme" "ns1" "svc1" ⟨"no-wi", "us-central1", none⟩ =
      (.failNoFederation (wifNotEnabledMsg "no-wi"), []) :=
  c4NoFederationShortCircuit fxTwoBindings "acme" "ns1" "svc1" _ (Or.inl rfl)

/-- C7: a supported, existing workload whose pod template names no service
account resolves to the literal `"default"`. -/
theorem c7EmptyIdentityDefaults (store : WorkloadKind → String → String → Except String String)
    (ns name wType : String) (k : WorkloadKind)
    (hk : workloadKind wType = some k) (hs : store k ns name = .ok "") :
    (getKsaFromWorkload store ns name wType).fst = .ok "default" := by
  simp [getKsaFromWorkload, hk, hs]

/-- C7 witness: a concrete deployment with an empty identity field. -/
theorem c7EmptyIdentityDefaultsWitness :
    (getKsaFromWorkload (fun _ _ _ => .ok "") "ns1" "w1" "deployment").fst = .ok "default" :=
  c7EmptyIdentityDefaults (fun _ _ _ => .ok "") "ns1" "w1" "deployment" .deployment
    (by decide) rfl

/-- C9: `performKsaCheck` is deterministic — two runs with equal fixture
responses and equal inputs return bit-identical results. -/
theorem c9Deterministic (fx1 fx2 : Fixtures) (projectID ksaNamespace ksaName : String)
    (c1 c2 : Cluster) (hfx : fx1 = fx2) (hc : c1 = c2) :
    performKsaCheck fx1 projectID ksaNamespace ksaName c1 =
      performKsaCheck fx2 projectID ksaNamespace ksaName c2 := by
  rw [hfx, hc]

/-- C9 witness: two runs on a concrete fixture. -/
theorem c9DeterministicWitness :
    performKsaCheck fxTwoBindings "acme" "ns1" "svc1" clusterAcme =
      performKsaCheck fxTwoBindings "acme" "ns1" "svc1" clusterAcme :=
  c9Deterministic fxTwoBindings fxTwoBindings "acme" "ns1" "svc1" clusterAcme clusterAcme
    rfl rfl

/-- C10: the kind dispatch lowercases the kind string before comparison
(any two kind strings with the same lowercasing dispatch identically), and
accepts `deploy`, `sts`, `ds` and `cj` as aliases beyond the five full kind
names, case-insensitively. -/
theorem c10KindDispatch :
    (∀ w1 w2 : String, strToLower w1 = strToLower w2 → workloadKind w1 = workloadKind w2) ∧
    workloadKind "deploy" = some .deployment ∧
    workloadKind "sts" = some .statefulset ∧
    workloadKind "ds" = some .daemonset ∧
    workloadKind "cj" = some .cronjob ∧
    workloadKind "Deployment" = some .deployment ∧
    workloadKind "CRONJOB" = some .cronjob ∧
    workloadKind "pod" = none := by
  refine ⟨fun w1 w2 h => ?_, by decide, by decide, by decide, by decide, by decide,
    by decide, by decide⟩
  unfold workloadKind
  rw [h]

theorem strInfixMiddle (a b c : String) : b.data <:+: (a ++ b ++ c).data :=
  ⟨a.data, c.data, by simp [String.data_append]⟩

theorem gsaInfixRemediation (g p ns n : String) :
    g.data <:+: (addBindingRemediation g p ns n).data := by
  refine ⟨("IAM binding not found. Run the following command to fix:\n\ngcloud iam service-accounts add-iam-policy-binding ").data,
    (" \\\n  --role=roles/iam.workloadIdentityUser \\\n  --member=\"serviceAccount:" ++ p ++
      ".svc.id.goog[" ++ ns ++ "/" ++ n ++ "]\"").data, ?_⟩
  simp only [addBindingRemediation, String.data_append, List.append_assoc]

theorem projectInfixRemediation (g p ns n : String) :
    p.data <:+: (addBindingRemediation g p ns n).data := by
  refine ⟨("IAM binding not found. Run the following command to fix:\n\ngcloud iam service-accounts add-iam-policy-binding " ++
      g ++ " \\\n  --role=roles/iam.workloadIdentityUser \\\n  --member=\"serviceAccount:").data,
    (".svc.id.goog[" ++ ns ++ "/" ++ n ++ "]\"").data, ?_⟩
  simp only [addBindingRemediation, String.data_append, List.append_assoc]

theorem nsInfixRemediation (g p ns n : String) :
    ns.data <:+: (addBindingRemediation g p ns n).data := by
  refine ⟨("IAM binding not found. Run the following command to fix:\n\ngcloud iam service-accounts add-iam-policy-binding " ++
      g ++ " \\\n  --role=roles/iam.workloadIdentityUser \\\n  --member=\"serviceAccount:" ++ p ++
      ".svc.id.goog[").data, ("/" ++ n ++ "]\"").data, ?_⟩
  simp only [addBindingRemediation, String.data_append, List.append_assoc]

theorem nameInfixRemediation (g p ns n : String) :
    n.data <:+: (addBindingRemediation g p ns n).data := by
  refine ⟨("IAM binding not found. Run the following command to fix:\n\ngcloud iam service-accounts add-iam-policy-binding " ++
      g ++ " \\\n  --role=roles/iam.workloadIdentityUser \\\n  --member=\"serviceAccount:" ++ p ++
      ".svc.id.goog[" ++ ns ++ "/").data, ("]\"").data, ?_⟩
  simp only [addBindingRemediation, String.data_append, List.append_assoc]

/-- C5: under Branch A (annotation present and non-empty, GSA policy
fetched), the run passes exactly when some binding carries the consumer
role with a member exactly equal to the legacy-syntax candidate; otherwise
it fails with a remediation containing the GSA, the project id, the
namespace and the KSA name as substrings. -/
theorem c5BranchADecision (fx : Fixtures) (projectID ksaNamespace ksaName : String)
    (cluster : Cluster) (wic : WorkloadIdentityConfig) (ksa : ServiceAccount)
    (gsaEmail : String) (policy : Policy)
    (hw : cluster.workloadIdentityConfig = some wic)
    (hp : wic.workloadPool ≠ "")
    (hk : fx.ksaGet ksaNamespace ksaName = .ok ksa)
    (ha : (ksa.annotations gsaAnnotationKey).getD "" = gsaEmail)
    (hne : gsaEmail ≠ "")
    (hpol : fx.identityPolicyGet gsaEmail = .ok policy) :
    ((performKsaCheck fx projectID ksaNamespace ksaName cluster).fst = .passDirectBinding ↔
      ∃ b ∈ policy.bindings, b.role = workloadIdentityUserRole ∧
        legacySyntax projectID ksaNamespace ksaName ∈ b.members) ∧
    ((¬ ∃ b ∈ policy.bindings, b.role = workloadIdentityUserRole ∧
        legacySyntax projectID ksaNamespace ksaName ∈ b.members) →
      (performKsaCheck fx projectID ksaNamespace ksaName cluster).fst =
        .failNoBinding (addBindingRemediation gsaEmail projectID ksaNamespace ksaName)) ∧
    gsaEmail.data <:+: (addBindingRemediation gsaEmail projectID ksaNamespace ksaName).data ∧
    projectID.data <:+: (addBindingRemediation gsaEmail projectID ksaNamespace ksaName).data ∧
    ksaNamespace.data <:+: (addBindingRemediation gsaEmail projectID ksaNamespace ksaName).data ∧
    ksaName.data <:+: (addBindingRemediation gsaEmail projectID ksaNamespace ksaName).data := by
  have hres : (performKsaCheck fx projectID ksaNamespace ksaName cluster).fst =
      if bindingFound (legacySyntax projectID ksaNamespace ksaName) policy.bindings then
        .passDirectBinding
      else .failNoBinding (addBindingRemediation gsaEmail projectID ksaNamespace ksaName) := by
    simp only [performKsaCheck, hw, hk, ha]
    simp [hp, hne, hpol]
    split <;> simp
  refine ⟨?_, ?_, gsaInfixRemediation .., projectInfixRemediation ..,
    nsInfixRemediation .., nameInfixRemediation ..⟩
  · rw [hres]
    rcases hb : bindingFound (legacySyntax projectID ksaNamespace ksaName) policy.bindings with _ | _
    · simp [← bindingFoundIff, hb]
    · simp [← bindingFoundIff, hb]
  · intro hnot
    rw [hres, if_neg]
    rw [← bindingFoundIff] at hnot
    simp at hnot
    simp [hnot]

/-- C5 witness: the spec's concrete scenario passes, at the concrete inputs
project `acme`, `ns1/svc1`, pool `acme.svc.id.goog`, GSA
`gsa@acme.iam.gserviceaccount.com`. -/
theorem c5BranchADecisionWitness :
    ((performKsaCheck (fxBranchA policyAcmeDirect) "acme" "ns1" "svc1" clusterAcme).fst =
        .passDirectBinding ↔
      ∃ b ∈ policyAcmeDirect.bindings, b.role = workloadIdentityUserRole ∧
        legacySyntax "acme" "ns1" "svc1" ∈ b.members) ∧
    ((¬ ∃ b ∈ policyAcmeDirect.bindings, b.role = workloadIdentityUserRole ∧
        legacySyntax "acme" "ns1" "svc1" ∈ b.members) →
      (performKsaCheck (fxBranchA policyAcmeDirect) "acme" "ns1" "svc1" clusterAcme).fst =
        .failNoBinding (addBindingRemediation "gsa@acme.iam.gserviceaccount.com" "acme" "ns1" "svc1")) ∧
    ("gsa@acme.iam.gserviceaccount.com" : String).data <:+:
      (addBindingRemediation "gsa@acme.iam.gserviceaccount.com" "acme" "ns1" "svc1").data ∧
    ("acme" : String).data <:+:
      (addBindingRemediation "gsa@acme.iam.gserviceaccount.com" "acme" "ns1" "svc1").data ∧
    ("ns1" : String).data <:+:
      (addBindingRemediation "gsa@acme.iam.gserviceaccount.com" "acme" "ns1" "svc1").data ∧
    ("svc1" : String).data <:+:
      (addBindingRemediation "gsa@acme.iam.gserviceaccount.com" "acme" "ns1" "svc1").data :=
  c5BranchADecision (fxBranchA policyAcmeDirect) "acme" "ns1" "svc1" clusterAcme
    ⟨"acme.svc.id.goog"⟩ ⟨fun key => if key = gsaAnnotationKey then some "gsa@acme.iam.gserviceaccount.com" else none⟩
    "gsa@acme.iam.gserviceaccount.com" policyAcmeDirect rfl (by decide) rfl rfl (by decide) rfl

/-- C6: under Branch B (no annotation), when no binding member of the
fetched project policy matches either candidate, the run ends with the
informational `infoNoAnnot` result carrying the two remediation
options, and that result is not an error (the CLI exits 0). -/
theorem c6InfoNoAnnotationNotError (fx : Fixtures) (projectID ksaNamespace ksaName : String)
    (cluster : Cluster) (wic : WorkloadIdentityConfig) (ksa : ServiceAccount) (policy : Policy)
    (hw : cluster.workloadIdentityConfig = some wic)
    (hp : wic.workloadPool ≠ "")
    (hk : fx.ksaGet ksaNamespace ksaName = .ok ksa)
    (ha : (ksa.annotations gsaAnnotationKey).getD "" = "")
    (hpol : fx.projectPolicyGet projectID = .ok policy)
    (hnm : ∀ b ∈ policy.bindings, ∀ m ∈ b.members,
      memberMatches (principalSchema projectID ksaNamespace ksaName)
        (legacySyntax projectID ksaNamespace ksaName) m = false) :
    (performKsaCheck fx projectID ksaNamespace ksaName cluster).fst =
      .infoNoAnnot [noBindingOption1, noBindingOption2 ksaNamespace ksaName] ∧
    ((performKsaCheck fx projectID ksaNamespace ksaName cluster).fst).isError = false ∧
    [noBindingOption1, noBindingOption2 ksaNamespace ksaName].length = 2 := by
  have hscan := scanBindingsNone (principalSchema projectID ksaNamespace ksaName)
    (legacySyntax projectID ksaNamespace ksaName) policy.bindings "" hnm
  have hres : (performKsaCheck fx projectID ksaNamespace ksaName cluster).fst =
      .infoNoAnnot [noBindingOption1, noBindingOption2 ksaNamespace ksaName] := by
    simp only [performKsaCheck, hw, hk]
    simp [hp, ha, hpol, hscan]
  exact ⟨hres, by simp [hres, VerificationResult.isError], rfl⟩

/-- C6 witness: a concrete Branch B run with no matching member. -/
theorem c6InfoNoAnnotationNotErrorWitness :
    (performKsaCheck fxNoMatch "acme" "ns1" "svc1" clusterAcme).fst =
      .infoNoAnnot [noBindingOption1, noBindingOption2 "ns1" "svc1"] ∧
    ((performKsaCheck fxNoMatch "acme" "ns1" "svc1" clusterAcme).fst).isError = false ∧
    [noBindingOption1, noBindingOption2 "ns1" "svc1"].length = 2 :=
  c6InfoNoAnnotationNotError fxNoMatch "acme" "ns1" "svc1" clusterAcme ⟨"acme.svc.id.goog"⟩
    ksaNoAnnot ⟨[⟨"roles/viewer", ["user:alice@example.com"]⟩]⟩ rfl (by decide) rfl rfl rfl
    (by decide)

/-- C1 counterexample: with two bindings each containing a matching member,
the first matching member scanning bindings in order is the first binding's
(`first-...`), but the run reports the second binding's member — the outer
loop keeps scanning and a later binding overwrites the hit. -/
theorem c1Counterexample :
    (performKsaCheck fxTwoBindings "acme" "ns1" "svc1" clusterAcme).fst =
      .directProjectBinding "second-serviceAccount:acme.svc.id.goog[ns1/svc1]" ∧
    firstHitMember (principalSchema "acme" "ns1" "svc1") (legacySyntax "acme" "ns1" "svc1")
      [⟨"roles/viewer", ["first-serviceAccount:acme.svc.id.goog[ns1/svc1]"]⟩,
        ⟨"roles/editor", ["second-serviceAccount:acme.svc.id.goog[ns1/svc1]"]⟩] =
      some "first-serviceAccount:acme.svc.id.goog[ns1/svc1]" ∧
    ("second-serviceAccount:acme.svc.id.goog[ns1/svc1]" : String) ≠
      "first-serviceAccount:acme.svc.id.goog[ns1/svc1]" := by
  refine ⟨by decide, by decide, by decide⟩

/-- C1 amended: in Branch B the reported member is the first matching
member of the last binding (in scan order) that contains any matching
member — a later binding's hit overwrites an earlier one's. -/
theorem c1LastMatchReported (fx : Fixtures) (projectID ksaNamespace ksaName : String)
    (cluster : Cluster) (wic : WorkloadIdentityConfig) (ksa : ServiceAccount) (policy : Policy)
    (m : String)
    (hw : cluster.workloadIdentityConfig = some wic)
    (hp : wic.workloadPool ≠ "")
    (hk : fx.ksaGet ksaNamespace ksaName = .ok ksa)
    (ha : (ksa.annotations gsaAnnotationKey).getD "" = "")
    (hpol : fx.projectPolicyGet projectID = .ok policy)
    (hm : policy.bindings.reverse.findSome?
      (scanBinding (principalSchema projectID ksaNamespace ksaName)
        (legacySyntax projectID ksaNamespace ksaName)) = some m)
    (hne : m ≠ "") :
    (performKsaCheck fx projectID ksaNamespace ksaName cluster).fst =
      .directProjectBinding m := by
  have hscan : scanBindings (principalSchema projectID ksaNamespace ksaName)
      (legacySyntax projectID ksaNamespace ksaName) policy.bindings "" = m := by
    rw [scanBindingsEq, hm]
    rfl
  simp only [performKsaCheck, hw, hk]
  simp [hp, ha, hpol, hscan, hne]

/-- C1 amended witness: the two-binding policy reports the second binding's
member. -/
theorem c1LastMatchReportedWitness :
    (performKsaCheck fxTwoBindings "acme" "ns1" "svc1" clusterAcme).fst =
      .directProjectBinding "second-serviceAccount:acme.svc.id.goog[ns1/svc1]" :=
  c1LastMatchReported fxTwoBindings "acme" "ns1" "svc1" clusterAcme ⟨"acme.svc.id.goog"⟩
    ksaNoAnnot ⟨[⟨"roles/viewer", ["first-serviceAccount:acme.svc.id.goog[ns1/svc1]"]⟩,
      ⟨"roles/editor", ["second-serviceAccount:acme.svc.id.goog[ns1/svc1]"]⟩]⟩
    "second-serviceAccount:acme.svc.id.goog[ns1/svc1]" rfl (by decide) rfl rfl rfl
    (by decide) (by decide)

/-- C2 counterexample: the cluster's pool is `other.svc.id.goog` while the
project is `acme`; the sole policy member is exactly the legacy form built
from the cluster's pool, which would match had the candidates been built
from that pool — yet the run finds no match, because the candidates are
built from the project id, and the project-derived candidate differs from
the pool-derived one. -/
theorem c2Counterexample :
    (performKsaCheck fxOtherPoolMember "acme" "ns1" "svc1" clusterOtherPool).fst =
      .infoNoAnnot [noBindingOption1, noBindingOption2 "ns1" "svc1"] ∧
    memberMatches (currentFromPool "other.svc.id.goog" "ns1" "svc1")
      (legacyFromPool "other.svc.id.goog" "ns1" "svc1")
      "serviceAccount:other.svc.id.goog[ns1/svc1]" = true ∧
    legacySyntax "acme" "ns1" "svc1" ≠ legacyFromPool "other.svc.id.goog" "ns1" "svc1" := by
  refine ⟨by decide, by decide, by decide⟩

/-- C2 amended: both candidate strings are derived from the project id
(`<project>.svc.id.goog`); the cluster's pool identifier, once non-empty,
has no influence — two clusters differing only in their (non-empty) pool
identifiers produce identical runs. -/
theorem c2CandidatesFromProjectID (fx : Fixtures) (projectID ksaNamespace ksaName : String)
    (cname loc pool1 pool2 : String) (h1 : pool1 ≠ "") (h2 : pool2 ≠ "") :
    performKsaCheck fx projectID ksaNamespace ksaName ⟨cname, loc, some ⟨pool1⟩⟩ =
      performKsaCheck fx projectID ksaNamespace ksaName ⟨cname, loc, some ⟨pool2⟩⟩ := by
  simp only [performKsaCheck]
  simp [h1, h2]

/-- C2 amended witness: changing the pool from the project default to an
unrelated one leaves the concrete run unchanged. -/
theorem c2CandidatesFromProjectIDWitness :
    performKsaCheck fxOtherPoolMember "acme" "ns1" "svc1"
        ⟨"test-cluster", "us-central1", some ⟨"acme.svc.id.goog"⟩⟩ =
      performKsaCheck fxOtherPoolMember "acme" "ns1" "svc1"
        ⟨"test-cluster", "us-central1", some ⟨"other.svc.id.goog"⟩⟩ :=
  c2CandidatesFromProjectID fxOtherPoolMember "acme" "ns1" "svc1" "test-cluster" "us-central1"
    "acme.svc.id.goog" "other.svc.id.goog" (by decide) (by decide)

/-- C3 counterexample: a member that strictly contains the legacy candidate
(and does not contain the current form) is reported as a match, although it
is not exactly equal to the legacy form — the spec-worded matcher (legacy
exact, current substring) rejects it. -/
theorem c3Counterexample :
    (performKsaCheck fxLegacySuperstring "acme" "ns1" "svc1" clusterAcme).fst =
      .directProjectBinding "deleted:serviceAccount:acme.svc.id.goog[ns1/svc1]" ∧
    ("deleted:serviceAccount:acme.svc.id.goog[ns1/svc1]" : String) ≠
      legacySyntax "acme" "ns1" "svc1" ∧
    strContains "deleted:serviceAccount:acme.svc.id.goog[ns1/svc1]"
      (principalSchema "acme" "ns1" "svc1") = false ∧
    specMatches (legacySyntax "acme" "ns1" "svc1") (principalSchema "acme" "ns1" "svc1")
      ["deleted:serviceAccount:acme.svc.id.goog[ns1/svc1]"] = none := by
  refine ⟨by decide, by decide, by decide, by decide⟩

/-- C3 amended: Branch B's member test accepts a member as soon as either
candidate — the current form or the legacy form — occurs in it as a
substring; exact equality with the legacy form is sufficient but not
required. -/
theorem c3SubstringMatch (ps ls m : String) :
    (memberMatches ps ls m = true ↔ ps.data <:+: m.data ∨ ls.data <:+: m.data) ∧
    memberMatches ps ls ls = true := by
  constructor
  · simp [memberMatches, strContains]
  · simp [memberMatches, strContains]

/-- C8 counterexample: the kind string `deploy` is not one of the five
supported values, yet the resolver does not fail with the unsupported-kind
error — it dispatches to the deployment store and performs a fetch. -/
theorem c8Counterexample :
    getKsaFromWorkload storeAllSa1 "ns1" "w1" "deploy" =
      (.ok "sa1", [⟨.deployment, "ns1", "w1"⟩]) ∧
    ("deploy" : String) ∉ ["deployment", "statefulset", "daemonset", "job", "cronjob"] := by
  refine ⟨rfl, by decide⟩

/-- C8 amended: a kind string the dispatcher does not recognize (its
lowercasing is none of the five kind names nor the four abbreviations)
fails with the unsupported-kind error before any fetch: the trace of store
gets is empty. -/
theorem c8UnsupportedKindNoFetch (store : WorkloadKind → String → String → Except String String)
    (ns name wType : String) (h : workloadKind wType = none) :
    getKsaFromWorkload store ns name wType =
      (.error ("unsupported workload type '" ++ wType ++ "'"), []) := by
  simp [getKsaFromWorkload, h]

/-- C8 amended witness: kind `pod` fails with no fetch. -/
theorem c8UnsupportedKindNoFetchWitness :
    getKsaFromWorkload storeAllSa1 "ns1" "w1" "pod" =
      (.error ("unsupported workload type '" ++ "pod" ++ "'"), []) :=
  c8UnsupportedKindNoFetch storeAllSa1 "ns1" "w1" "pod" (by decide)

end GkeWif
